import Mathlib

set_option linter.unusedVariables false

/-!
Shallow embedding of the Z-services collaborative inspection-report code:
the two client report stores with their merge engines (flat store and
category-aware store), and the collaboration protocol handler with its
session store. JavaScript numbers that hold timestamps are modelled as
`Int` (so that expressions such as `T1 - 1` and comparisons against
negative cursors behave as in the source); JavaScript truthiness of the
values that actually occur (strings, `null`, arrays, numbers) is modelled
explicitly at each use site.
-/

/-- A JavaScript inspection-field value: either `null` or a string.
An absent (`undefined`) value is modelled by `Option` at use sites. -/
inductive JsVal where
  | null : JsVal
  | str : String → JsVal
deriving DecidableEq, Repr

/-- JS truthiness of a `JsVal`: `null` and the empty string are falsy. -/
def JsVal.truthy : JsVal → Bool
  | .null => false
  | .str s => s != ""

/-- JS `a || b` on strings: the empty string is falsy. -/
def strOr (a b : String) : String := if a == "" then b else a

/-- JS `a || b` where `a` is a nullable string field (`string | null`). -/
def optStrOr (a b : Option String) : Option String :=
  match a with
  | some s => if s == "" then b else some s
  | none => b

/-- JS `a || b` where `a` is an optional number: `0` (and absence) is falsy. -/
def intOr (a : Option Int) (b : Int) : Int :=
  match a with
  | some t => if t == 0 then b else t
  | none => b

/-- One photographic-evidence entry of the Report Aggregate
(fields as in `PhotoData` usage throughout the stores). -/
structure PhotoData where
  id : String
  description : String
  pn : String
  serialNumber : String
  partName : String
  quantity : String
  criticality : String
  imageData : Option String
  editedImageData : Option String
  embeddedPhotos : List String
  hasAdditionalParts : Bool
deriving DecidableEq, Repr, Inhabited

/-- The `local && server` branch of `mergePhotos`: field-by-field merge of one
photo pair, the server side winning whenever its value is truthy;
`hasAdditionalParts` is the OR of both sides. -/
def mergePhotoPair (l s : PhotoData) : PhotoData :=
  { id := strOr s.id l.id
    description := strOr s.description (strOr l.description "")
    pn := strOr s.pn (strOr l.pn "")
    serialNumber := strOr s.serialNumber (strOr l.serialNumber "")
    partName := strOr s.partName (strOr l.partName "")
    quantity := strOr s.quantity (strOr l.quantity "")
    criticality := strOr s.criticality (strOr l.criticality "")
    imageData := optStrOr s.imageData l.imageData
    editedImageData := optStrOr s.editedImageData l.editedImageData
    embeddedPhotos :=
      if s.embeddedPhotos.length != 0 then s.embeddedPhotos else l.embeddedPhotos
    hasAdditionalParts := s.hasAdditionalParts || l.hasAdditionalParts }

/-- Body of the index loop of `mergePhotos` at index `i`: one-sided entries
pass through, two-sided entries are merged; nothing is pushed when both sides
are out of range. -/
def pairAt (localPhotos serverPhotos : List PhotoData) (i : Nat) : Option PhotoData :=
  match localPhotos[i]?, serverPhotos[i]? with
  | none, some s => some s
  | some l, none => some l
  | some l, some s => some (mergePhotoPair l s)
  | none, none => none

/-- Positional photo merge, defined identically in both stores: an empty side
passes the other through; otherwise indices `0 ≤ i < max len` are paired. -/
def mergePhotos (localPhotos serverPhotos : List PhotoData) : List PhotoData :=
  if serverPhotos.length == 0 then localPhotos
  else if localPhotos.length == 0 then serverPhotos
  else
    (List.range (max localPhotos.length serverPhotos.length)).filterMap
      (pairAt localPhotos serverPhotos)

/-- The named inspection fields of `InspectionData`. -/
inductive InspField where
  | tag | modelo | sn | entrega | cliente | descricao | machineDown
  | data | dataFinal | osExecucao | inspetor | horimetro
  | machinePhoto | horimetroPhoto | serialPhoto
deriving DecidableEq, Repr

/-- All inspection fields, in declaration order. -/
def InspField.all : List InspField :=
  [.tag, .modelo, .sn, .entrega, .cliente, .descricao, .machineDown,
   .data, .dataFinal, .osExecucao, .inspetor, .horimetro,
   .machinePhoto, .horimetroPhoto, .serialPhoto]

/-- `InspectionData`: a value for every inspection field. -/
abbrev InspectionData := InspField → JsVal

/-- `Partial InspectionData`: `none` marks a key absent from the object
(not enumerated by `Object.keys`). -/
abbrev PartialInspection := InspField → Option JsVal

/-- The `initialInspection` literal: string fields empty, photo fields null. -/
def initialInspection : InspectionData := fun f =>
  match f with
  | .machinePhoto => .null
  | .horimetroPhoto => .null
  | .serialPhoto => .null
  | _ => .str ""

/-- Modelled from the spec: the `AdditionalPart` type is imported from
`@/types/report`, a file absent from the sources. The spec describes it only
as an identifier plus descriptive fields, so the descriptive payload is kept
as an opaque key-value list; the store code itself inspects only `id`. -/
structure AdditionalPart where
  id : String
  fields : List (String × String)
deriving DecidableEq, Repr

/-- `Partial AdditionalPart`, for `updateAdditionalPart`. -/
structure PartialAdditionalPart where
  id : Option String := none
  fields : Option (List (String × String)) := none
deriving Repr

/-- JS spread `{...p, ...d}` for additional parts. -/
def applyPartialAdditionalPart (p : AdditionalPart) (d : PartialAdditionalPart) :
    AdditionalPart :=
  { id := d.id.getD p.id, fields := d.fields.getD p.fields }

/-- `Partial PhotoData`, for `updatePhoto`: `none` marks an absent key. -/
structure PartialPhoto where
  id : Option String := none
  description : Option String := none
  pn : Option String := none
  serialNumber : Option String := none
  partName : Option String := none
  quantity : Option String := none
  criticality : Option String := none
  imageData : Option (Option String) := none
  editedImageData : Option (Option String) := none
  embeddedPhotos : Option (List String) := none
  hasAdditionalParts : Option Bool := none
deriving Repr

/-- JS spread `{...p, ...d}` for photos. -/
def applyPartialPhoto (p : PhotoData) (d : PartialPhoto) : PhotoData :=
  { id := d.id.getD p.id
    description := d.description.getD p.description
    pn := d.pn.getD p.pn
    serialNumber := d.serialNumber.getD p.serialNumber
    partName := d.partName.getD p.partName
    quantity := d.quantity.getD p.quantity
    criticality := d.criticality.getD p.criticality
    imageData := d.imageData.getD p.imageData
    editedImageData := d.editedImageData.getD p.editedImageData
    embeddedPhotos := d.embeddedPhotos.getD p.embeddedPhotos
    hasAdditionalParts := d.hasAdditionalParts.getD p.hasAdditionalParts }

/-- The `translation` slot of the flat store. -/
structure Translation where
  sourceLang : String
  targetLang : String
  translations : List (String × String)
deriving DecidableEq, Repr

/-- A fresh blank photo entry with the given id, as built in several places. -/
def blankPhoto (photoId : String) : PhotoData :=
  { id := photoId
    description := "", pn := "", serialNumber := "", partName := ""
    quantity := "", criticality := ""
    imageData := none, editedImageData := none
    embeddedPhotos := [], hasAdditionalParts := false }

/-- `createInitialPhotos(count)` of the flat store. -/
def createInitialPhotos (count : Nat) : List PhotoData :=
  (List.range count).map fun i => blankPhoto ("photo-init-" ++ toString i)

/-- The state of the flat report store (`useReportStore`). -/
structure ReportState where
  inspection : InspectionData
  photos : List PhotoData
  photoCount : Int
  additionalParts : List AdditionalPart
  conclusion : String
  translation : Option Translation
  lastLocalEdit : Int

/-- The initial flat-store state. -/
def initialReportState : ReportState :=
  { inspection := initialInspection
    photos := createInitialPhotos 4
    photoCount := 4
    additionalParts := []
    conclusion := ""
    translation := none
    lastLocalEdit := 0 }

/-- The payload accepted by the flat store's `loadFromData` / `mergeFromData`
and produced by `getAllData`. -/
structure ReportPayload where
  inspection : Option PartialInspection := none
  photos : Option (List PhotoData) := none
  conclusion : Option String := none

namespace ReportStore

/-- `updateInspection`: spreads the partial data over the inspection and
stamps `lastLocalEdit`. -/
def updateInspection (s : ReportState) (d : PartialInspection) (now : Int) :
    ReportState :=
  { s with inspection := fun f => (d f).getD (s.inspection f), lastLocalEdit := now }

/-- `setPhotos`. -/
def setPhotos (s : ReportState) (photos : List PhotoData) (now : Int) : ReportState :=
  { s with photos := photos, lastLocalEdit := now }

/-- `addPhoto`: appends a blank photo whose id embeds the current time. -/
def addPhoto (s : ReportState) (now : Int) : ReportState :=
  { s with
    photos := s.photos ++ [blankPhoto ("photo-" ++ toString now)]
    photoCount := s.photoCount + 1
    lastLocalEdit := now }

/-- `removePhoto`. -/
def removePhoto (s : ReportState) (photoId : String) (now : Int) : ReportState :=
  { s with
    photos := s.photos.filter fun p => p.id != photoId
    photoCount := s.photoCount - 1
    lastLocalEdit := now }

/-- `updatePhoto`. -/
def updatePhoto (s : ReportState) (photoId : String) (d : PartialPhoto) (now : Int) :
    ReportState :=
  { s with
    photos := s.photos.map fun p => if p.id == photoId then applyPartialPhoto p d else p
    lastLocalEdit := now }

/-- `setPhotoCount`: rebuilds `count` blank photos, preserving the existing
entries at indices below `min (length) count`. -/
def setPhotoCount (s : ReportState) (count : Nat) (now : Int) : ReportState :=
  { s with
    photos := (List.range count).map fun i =>
      (s.photos[i]?).getD (blankPhoto ("photo-init-" ++ toString i))
    photoCount := (count : Int)
    lastLocalEdit := now }

/-- `addAdditionalPart`. -/
def addAdditionalPart (s : ReportState) (part : AdditionalPart) (now : Int) :
    ReportState :=
  { s with additionalParts := s.additionalParts ++ [part], lastLocalEdit := now }

/-- `removeAdditionalPart`. -/
def removeAdditionalPart (s : ReportState) (partId : String) (now : Int) : ReportState :=
  { s with
    additionalParts := s.additionalParts.filter fun p => p.id != partId
    lastLocalEdit := now }

/-- `updateAdditionalPart`. -/
def updateAdditionalPart (s : ReportState) (partId : String)
    (d : PartialAdditionalPart) (now : Int) : ReportState :=
  { s with
    additionalParts := s.additionalParts.map fun p =>
      if p.id == partId then applyPartialAdditionalPart p d else p
    lastLocalEdit := now }

/-- `setAdditionalParts`. -/
def setAdditionalParts (s : ReportState) (parts : List AdditionalPart) (now : Int) :
    ReportState :=
  { s with additionalParts := parts, lastLocalEdit := now }

/-- `setConclusion`. -/
def setConclusion (s : ReportState) (text : String) (now : Int) : ReportState :=
  { s with conclusion := text, lastLocalEdit := now }

/-- `setTranslation`: does not stamp `lastLocalEdit`. -/
def setTranslation (s : ReportState) (t : Option Translation) : ReportState :=
  { s with translation := t }

/-- `setLastLocalEdit`. -/
def setLastLocalEdit (s : ReportState) (timestamp : Int) : ReportState :=
  { s with lastLocalEdit := timestamp }

/-- `loadFromData`: replaces inspection, photos and conclusion wholesale
(`data.photos || createInitialPhotos(4)`, `data.conclusion || ''`);
`lastLocalEdit` is not touched. -/
def loadFromData (s : ReportState) (d : ReportPayload) : ReportState :=
  { s with
    inspection := match d.inspection with
      | some di => fun f => (di f).getD (initialInspection f)
      | none => initialInspection
    photos := d.photos.getD (createInitialPhotos 4)
    conclusion := d.conclusion.getD "" }

/-- Per-field rule of the flat store's `mergeFromData` inspection loop:
the server value wins whenever it is neither null, undefined nor empty. -/
def mergeInspFieldFlat (localv : JsVal) (serverv : Option JsVal) : JsVal :=
  match serverv with
  | some v => if v.truthy then v else localv
  | none => localv

/-- Whether the flat inspection loop marks the field as changed. -/
def inspFieldChanged (localv : JsVal) (serverv : Option JsVal) : Bool :=
  match serverv with
  | some v => v.truthy && v != localv
  | none => false

/-- The flat store's `mergeFromData` (unconditional field-priority merge).
The source action hands only the merged `inspection`, `photos` and
`conclusion` to the state setter; the `hasChanges` flag it computes along the
way is console-logged and never returned to the caller. The pair returned
here carries the resulting state together with that internally computed flag.
The `serverTimestamp` parameter is accepted, as in the source, and never
read. -/
def mergeFromData (s : ReportState) (d : ReportPayload)
    (serverTimestamp : Option Int) : ReportState × Bool :=
  let newInspection : InspectionData := fun f =>
    match d.inspection with
    | some di => mergeInspFieldFlat (s.inspection f) (di f)
    | none => s.inspection f
  let hasChanges0 : Bool :=
    match d.inspection with
    | some di => InspField.all.any fun f => inspFieldChanged (s.inspection f) (di f)
    | none => false
  let photosStep : List PhotoData × Bool :=
    match d.photos with
    | some sp => (mergePhotos s.photos sp, true)
    | none => (s.photos, hasChanges0)
  let conclusionStep : String × Bool :=
    match d.conclusion with
    | some c =>
      if c != "" && c.trim != "" then
        if s.conclusion != c then (c, true) else (s.conclusion, photosStep.2)
      else (s.conclusion, photosStep.2)
    | none => (s.conclusion, photosStep.2)
  ({ s with
      inspection := newInspection
      photos := photosStep.1
      conclusion := conclusionStep.1 },
   conclusionStep.2)

/-- `getAllData`. -/
def getAllData (s : ReportState) : ReportPayload :=
  { inspection := some fun f => some (s.inspection f)
    photos := some s.photos
    conclusion := some s.conclusion }

/-- `clearAll`: resets every state field to its default. -/
def clearAll (s : ReportState) : ReportState :=
  { inspection := initialInspection
    photos := createInitialPhotos 4
    photoCount := 4
    additionalParts := []
    conclusion := ""
    translation := none
    lastLocalEdit := 0 }

end ReportStore

/-- One photo category of the category-aware store: an identifier, its photo
sequence and its own additional-part collection (the descriptive `name` stands
for the remaining fields spread through `{...serverCat}`). -/
structure PhotoCategory where
  id : String
  name : String
  photos : List PhotoData
  additionalParts : List AdditionalPart
deriving DecidableEq, Repr

/-- A category definition of the fixed enumeration. -/
structure CategoryDef where
  id : String
  name : String
deriving DecidableEq, Repr

/-- Modelled from the spec: `DEFAULT_CATEGORIES` lives in `@/types/report`,
absent from the sources; the spec says only that categories come from a
fixed, versioned enumeration of valid identifiers, so a fixed representative
enumeration is used here. -/
def DEFAULT_CATEGORIES : List CategoryDef :=
  [{ id := "exterior", name := "Exterior" },
   { id := "interior", name := "Interior" },
   { id := "engine", name := "Engine" }]

/-- `createInitialCategoryPhotos(categoryId)`: two blank photos per category. -/
def createInitialCategoryPhotos (categoryId : String) : List PhotoData :=
  (List.range 2).map fun i =>
    blankPhoto ("photo-" ++ categoryId ++ "-init-" ++ toString i)

/-- `createInitialCategories()`. -/
def createInitialCategories : List PhotoCategory :=
  DEFAULT_CATEGORIES.map fun cat =>
    { id := cat.id, name := cat.name
      photos := createInitialCategoryPhotos cat.id
      additionalParts := [] }

/-- `VALID_CATEGORY_IDS`. -/
def VALID_CATEGORY_IDS : List String := DEFAULT_CATEGORIES.map fun c => c.id

/-- `mergeCategories`: driven by the server category list; a server category
with no local counterpart is adopted wholesale, otherwise its photos are
merged positionally and its additional parts win only when non-empty. -/
def mergeCategories (localCats serverCats : List PhotoCategory) : List PhotoCategory :=
  if serverCats.length == 0 then localCats
  else if localCats.length == 0 then serverCats
  else serverCats.map fun serverCat =>
    match localCats.find? (fun c => c.id == serverCat.id) with
    | none => serverCat
    | some localCat =>
      { serverCat with
        photos := mergePhotos localCat.photos serverCat.photos
        additionalParts :=
          if serverCat.additionalParts.length != 0 then serverCat.additionalParts
          else localCat.additionalParts }

/-- The state of the category-aware report store (`useHomeReportStore`). -/
structure HomeReportState where
  inspection : InspectionData
  categories : List PhotoCategory
  conclusion : String
  lastLocalEdit : Int

/-- The initial category-aware store state. -/
def initialHomeReportState : HomeReportState :=
  { inspection := initialInspection
    categories := createInitialCategories
    conclusion := ""
    lastLocalEdit := 0 }

/-- The payload accepted by the category-aware store's `loadFromData` /
`mergeFromData` and produced by its `getAllData`. -/
structure HomePayload where
  inspection : Option PartialInspection := none
  categories : Option (List PhotoCategory) := none
  conclusion : Option String := none

/-- The effective server time of the category-aware merge:
`serverTimestamp || Date.now()` (a missing or zero timestamp falls back to
the current time). -/
def effServerTime (serverTimestamp : Option Int) (now : Int) : Int :=
  intOr serverTimestamp now

namespace HomeReportStore

/-- `updateInspection`. -/
def updateInspection (s : HomeReportState) (d : PartialInspection) (now : Int) :
    HomeReportState :=
  { s with inspection := fun f => (d f).getD (s.inspection f), lastLocalEdit := now }

/-- `setCategories`. -/
def setCategories (s : HomeReportState) (categories : List PhotoCategory) (now : Int) :
    HomeReportState :=
  { s with categories := categories, lastLocalEdit := now }

/-- `addPhotoToCategory`. -/
def addPhotoToCategory (s : HomeReportState) (categoryId : String) (now : Int) :
    HomeReportState :=
  { s with
    categories := s.categories.map fun cat =>
      if cat.id != categoryId then cat
      else { cat with
        photos := cat.photos ++
          [blankPhoto ("photo-" ++ categoryId ++ "-" ++ toString now)] }
    lastLocalEdit := now }

/-- `removePhotoFromCategory`. -/
def removePhotoFromCategory (s : HomeReportState) (categoryId photoId : String)
    (now : Int) : HomeReportState :=
  { s with
    categories := s.categories.map fun cat =>
      if cat.id != categoryId then cat
      else { cat with photos := cat.photos.filter fun p => p.id != photoId }
    lastLocalEdit := now }

/-- `updatePhotoInCategory`. -/
def updatePhotoInCategory (s : HomeReportState) (categoryId photoId : String)
    (d : PartialPhoto) (now : Int) : HomeReportState :=
  { s with
    categories := s.categories.map fun cat =>
      if cat.id != categoryId then cat
      else { cat with
        photos := cat.photos.map fun p =>
          if p.id == photoId then applyPartialPhoto p d else p }
    lastLocalEdit := now }

/-- `addAdditionalPartToCategory`. -/
def addAdditionalPartToCategory (s : HomeReportState) (categoryId : String)
    (part : AdditionalPart) (now : Int) : HomeReportState :=
  { s with
    categories := s.categories.map fun cat =>
      if cat.id != categoryId then cat
      else { cat with additionalParts := cat.additionalParts ++ [part] }
    lastLocalEdit := now }

/-- `removeAdditionalPartFromCategory`. -/
def removeAdditionalPartFromCategory (s : HomeReportState) (categoryId partId : String)
    (now : Int) : HomeReportState :=
  { s with
    categories := s.categories.map fun cat =>
      if cat.id != categoryId then cat
      else { cat with additionalParts := cat.additionalParts.filter fun p => p.id != partId }
    lastLocalEdit := now }

/-- `setConclusion`. -/
def setConclusion (s : HomeReportState) (text : String) (now : Int) : HomeReportState :=
  { s with conclusion := text, lastLocalEdit := now }

/-- `setLastLocalEdit`. -/
def setLastLocalEdit (s : HomeReportState) (timestamp : Int) : HomeReportState :=
  { s with lastLocalEdit := timestamp }

/-- `loadFromData` of the category-aware store. -/
def loadFromData (s : HomeReportState) (d : HomePayload) : HomeReportState :=
  { s with
    inspection := match d.inspection with
      | some di => fun f => (di f).getD (initialInspection f)
      | none => initialInspection
    categories := d.categories.getD createInitialCategories
    conclusion := d.conclusion.getD "" }

/-- Per-field rule of the category-aware `mergeFromData` inspection loop:
adopt the server value if local is empty, or if the server value is truthy
and the server time is strictly newer than the last local edit. -/
def mergeInspFieldHome (localv : JsVal) (serverv : Option JsVal)
    (serverTime localEditTime : Int) : JsVal :=
  match serverv with
  | some v =>
    if v.truthy && !localv.truthy then v
    else if v.truthy && decide (serverTime > localEditTime) then v
    else localv
  | none => localv

/-- The category-aware store's `mergeFromData` (timestamp-authoritative
merge): when the last local edit is strictly newer than the effective server
time (and non-zero) the action returns an empty partial state, i.e. the
state is left untouched. -/
def mergeFromData (s : HomeReportState) (d : HomePayload)
    (serverTimestamp : Option Int) (now : Int) : HomeReportState :=
  let localEditTime := s.lastLocalEdit
  let serverTime := effServerTime serverTimestamp now
  if localEditTime > serverTime ∧ localEditTime > 0 then s
  else
    { s with
      inspection := fun f =>
        match d.inspection with
        | some di => mergeInspFieldHome (s.inspection f) (di f) serverTime localEditTime
        | none => s.inspection f
      categories := match d.categories with
        | some sc => mergeCategories s.categories sc
        | none => s.categories
      conclusion := match d.conclusion with
        | some c =>
          if c != "" && (s.conclusion == "" || decide (serverTime > localEditTime))
          then c else s.conclusion
        | none => s.conclusion }

/-- `getAllData` of the category-aware store. -/
def getAllData (s : HomeReportState) : HomePayload :=
  { inspection := some fun f => some (s.inspection f)
    categories := some s.categories
    conclusion := some s.conclusion }

/-- `clearAll` of the category-aware store. -/
def clearAll (s : HomeReportState) : HomeReportState :=
  { inspection := initialInspection
    categories := createInitialCategories
    conclusion := ""
    lastLocalEdit := 0 }

/-- The persistence `migrate` hook: on a version bump, categories whose id is
no longer in the valid set are dropped. -/
def migrate (categories : List PhotoCategory) (version STORAGE_VERSION : Nat) :
    List PhotoCategory :=
  if version < STORAGE_VERSION then
    categories.filter fun cat => VALID_CATEGORY_IDS.contains cat.id
  else categories

end HomeReportStore

/-- One participant record of a session (`{id, joinedAt, lastSeen}`). -/
structure Participant where
  id : String
  joinedAt : Int
  lastSeen : Int
deriving DecidableEq, Repr

/-- The kind of a session update event (`'full' | 'field'`). -/
inductive UpdateKind where
  | full | field
deriving DecidableEq, Repr

/-- One entry of a session's update log (`SessionUpdate`). -/
structure SessionUpdate where
  userId : String
  type : UpdateKind
  data : Option JsVal := none
  field : Option String := none
  value : Option JsVal := none
  timestamp : Int
deriving DecidableEq, Repr

/-- The serialized session payload (`{data, users, updates, lastUpdated}`);
`users` is the JS object modelled as a key-ordered association list, and
`data` is the canonical report snapshot (`none` models `undefined`,
`some .null` models JSON `null`). -/
structure SessionData where
  data : Option JsVal := none
  users : List (String × Participant) := []
  updates : List SessionUpdate := []
  lastUpdated : Int := 0
deriving DecidableEq, Repr

/-- One stored `SharedSession` row; JSON (de)serialization of `sessData` is
modelled as the identity. -/
structure StoredSession where
  sessionId : String
  creatorId : String
  creatorName : String
  reportType : String
  permission : String
  sessData : SessionData
  expiresAt : Int
deriving DecidableEq, Repr

/-- The session store: rows keyed by `sessionId`. -/
abbrev Db := List (String × StoredSession)

/-- `db.sharedSession.findUnique({where: {sessionId}})`. -/
def Db.findUnique (db : Db) (sid : String) : Option StoredSession :=
  (db.find? fun p => p.1 == sid).map fun p => p.2

/-- `db.sharedSession.update`: rewrite the serialized payload of the row. -/
def Db.updateData (db : Db) (sid : String) (sd : SessionData) : Db :=
  db.map fun p => if p.1 == sid then (p.1, { p.2 with sessData := sd }) else p

/-- `db.sharedSession.delete(...).catch(() => \x7b\x7d)`: idempotent removal. -/
def Db.deleteById (db : Db) (sid : String) : Db :=
  db.filter fun p => p.1 != sid

/-- Set a key of a JS object modelled as an association list: an existing key
is overwritten in place, a new key is appended. -/
def setKey {α : Type} (l : List (String × α)) (k : String) (v : α) :
    List (String × α) :=
  if l.any (fun p => p.1 == k) then l.map fun p => if p.1 == k then (k, v) else p
  else l ++ [(k, v)]

/-- `delete obj[k]` on a JS object modelled as an association list. -/
def removeKey {α : Type} (l : List (String × α)) (k : String) : List (String × α) :=
  l.filter fun p => p.1 != k

/-- `obj[k]` truthiness test on a JS object modelled as an association list. -/
def hasKey {α : Type} (l : List (String × α)) (k : String) : Bool :=
  l.any fun p => p.1 == k

/-- The request body of the collaboration endpoint. A missing `userId` is
modelled by the empty string (which is exactly the falsy case of the
`userId && ...` guards); `type` is assumed to be a well-formed kind when
present. -/
structure Request where
  action : String
  sessionId : String := ""
  userId : String := ""
  data : Option JsVal := none
  type : Option UpdateKind := none
  field : Option String := none
  value : Option JsVal := none
  timestamp : Option Int := none
  lastUpdate : Option Int := none
  initialData : Option JsVal := none
deriving Repr

/-- The JSON response of the collaboration endpoint (absent fields `none`). -/
structure Response where
  status : Nat := 200
  success : Bool
  error : Option String := none
  sessionIdOut : Option String := none
  shareLink : Option String := none
  dataOut : Option (Option JsVal) := none
  updates : List SessionUpdate := []
  userCount : Option Nat := none
  timestamp : Option Int := none
deriving Repr

/-- The `Session not found` 404 response. -/
def notFoundResp : Response :=
  { status := 404, success := false, error := some "Session not found" }

/-- The character set of `generateId`. -/
def idChars : List Char :=
  "ABCDEFGHIJKLMNOPQRSTUVWXYZabcdefghijklmnopqrstuvwxyz0123456789".toList

/-- `generateId(length)`: `length` characters drawn from the 62-symbol
alphanumeric alphabet. `Math.floor(Math.random() * chars.length)` is modelled
by an oracle `rand : Nat → Fin 62` giving the index drawn at each loop
iteration (the floor of a uniform draw scaled by 62 is always in `[0, 62)`). -/
def generateId (rand : Nat → Fin 62) (length : Nat) : String :=
  ⟨(List.range length).map fun i =>
    idChars.get (Fin.cast (by decide : (62 : Nat) = idChars.length) (rand i))⟩

/-- The five-minute inactivity window, in milliseconds. -/
def maxInactive : Int := 5 * 60 * 1000

/-- The `'create'` case: mints an id, stores a fresh session whose payload is
`{data: data || null, users: {}, updates: [], lastUpdated: now}` with a
24-hour expiry, and answers with the id and share link. The base URL of the
share link is taken as an already-resolved parameter (its environment-variable
resolution is not modelled). -/
def handleCreate (db : Db) (req : Request) (now : Int) (rand : Nat → Fin 62)
    (baseUrl : String) : Response × Db :=
  let newSessionId := generateId rand 8
  let shareLink := baseUrl ++ "/report/" ++ newSessionId
  let stored : StoredSession :=
    { sessionId := newSessionId
      creatorId := strOr req.userId "collaboration"
      creatorName := "Collaboration Session"
      reportType := "collaboration"
      permission := "edit"
      sessData :=
        { data := some (match req.data with
            | some v => if v.truthy then v else .null
            | none => .null)
          users := []
          updates := []
          lastUpdated := now }
      expiresAt := now + 24 * 60 * 60 * 1000 }
  ({ success := true, sessionIdOut := some newSessionId, shareLink := some shareLink },
   db ++ [(newSessionId, stored)])

/-- The `'join'` case: 404 when the session is absent; otherwise registers the
caller as a participant, lets a truthy `initialData` overwrite the canonical
snapshot, persists, and answers with the session data and participant count. -/
def handleJoin (db : Db) (req : Request) (now : Int) : Response × Db :=
  match db.findUnique req.sessionId with
  | none => (notFoundResp, db)
  | some session =>
    let sd := session.sessData
    let sd1 := { sd with
      users := setKey sd.users req.userId
        { id := req.userId, joinedAt := now, lastSeen := now } }
    let sd2 := match req.initialData with
      | some d0 => if d0.truthy then { sd1 with data := some d0, lastUpdated := now } else sd1
      | none => sd1
    ({ success := true, sessionIdOut := some session.sessionId,
       dataOut := some sd2.data, userCount := some sd2.users.length },
     db.updateData req.sessionId sd2)

/-- The `'leave'` case: best-effort removal of the caller from the roster;
always succeeds. -/
def handleLeave (db : Db) (req : Request) : Response × Db :=
  let db1 :=
    match db.findUnique req.sessionId with
    | some session =>
      if req.userId != "" && hasKey session.sessData.users req.userId then
        db.updateData req.sessionId
          { session.sessData with users := removeKey session.sessData.users req.userId }
      else db
    | none => db
  ({ success := true }, db1)

/-- The `'poll'` case: 404 when the session is absent; otherwise refreshes the
caller's `lastSeen`, prunes participants inactive for more than five minutes
and update events at least five minutes old, persists, and answers with the
events newer than the caller's cursor (`lastUpdate || 0`), the participant
count and the server time. -/
def handlePoll (db : Db) (req : Request) (now : Int) : Response × Db :=
  match db.findUnique req.sessionId with
  | none => (notFoundResp, db)
  | some session =>
    let sd := session.sessData
    let users1 :=
      if req.userId != "" && hasKey sd.users req.userId then
        sd.users.map fun p =>
          if p.1 == req.userId then (p.1, { p.2 with lastSeen := now }) else p
      else sd.users
    let users2 := users1.filter fun p => !(decide (now - p.2.lastSeen > maxInactive))
    let updates1 := sd.updates.filter fun u => decide (now - u.timestamp < maxInactive)
    let newUpdates := updates1.filter fun u => decide (u.timestamp > intOr req.lastUpdate 0)
    let sd1 := { sd with users := users2, updates := updates1 }
    ({ success := true, updates := newUpdates,
       userCount := some users2.length, timestamp := some now },
     db.updateData req.sessionId sd1)

/-- The `'update'` case: 404 when the session is absent; otherwise appends an
update event stamped `timestamp || Date.now()` — a `'field'` event records
`{field, value}` and leaves the canonical `data` untouched, any other kind
records `data` and overwrites the canonical `data` — then trims the log to
the five-minute window and persists. -/
def handleUpdate (db : Db) (req : Request) (now : Int) : Response × Db :=
  match db.findUnique req.sessionId with
  | none => (notFoundResp, db)
  | some session =>
    let sd := session.sessData
    let ts := intOr req.timestamp now
    let isField := req.type = some UpdateKind.field
    let upd : SessionUpdate :=
      if isField then
        { userId := req.userId, type := (req.type).getD .full,
          field := req.field, value := req.value, timestamp := ts }
      else
        { userId := req.userId, type := (req.type).getD .full,
          data := req.data, timestamp := ts }
    let data1 := if isField then sd.data else req.data
    let updates1 := (sd.updates ++ [upd]).filter fun u =>
      decide (now - u.timestamp < maxInactive)
    ({ success := true },
     db.updateData req.sessionId { sd with data := data1, updates := updates1, lastUpdated := now })

/-- The `'get'` case: 404 when the session is absent; otherwise answers with
the canonical data and participant count, without mutating anything. -/
def handleGet (db : Db) (req : Request) : Response × Db :=
  match db.findUnique req.sessionId with
  | none => (notFoundResp, db)
  | some session =>
    ({ success := true, dataOut := some session.sessData.data,
       userCount := some session.sessData.users.length,
       sessionIdOut := some session.sessionId }, db)

/-- The `'delete'` case: unconditional removal, always succeeds. -/
def handleDelete (db : Db) (req : Request) : Response × Db :=
  ({ success := true }, db.deleteById req.sessionId)

/-- The action-multiplexed POST entry point of the collaboration endpoint. -/
def handlePost (db : Db) (req : Request) (now : Int) (rand : Nat → Fin 62)
    (baseUrl : String) : Response × Db :=
  match req.action with
  | "create" => handleCreate db req now rand baseUrl
  | "join" => handleJoin db req now
  | "leave" => handleLeave db req
  | "poll" => handlePoll db req now
  | "update" => handleUpdate db req now
  | "get" => handleGet db req
  | "delete" => handleDelete db req
  | _ => ({ status := 400, success := false, error := some "Invalid action" }, db)

attribute [ext] ReportState HomeReportState

/-- Local state for the C1 counterexample: one prior local edit at time 1,
all fields still empty. -/
def noopLocalState : HomeReportState :=
  { inspection := initialInspection
    categories := []
    conclusion := ""
    lastLocalEdit := 1 }

/-- Incoming payload for the C1 counterexample: the server carries a
non-empty `tag`. -/
def noopServerPayload : HomePayload :=
  { inspection := some fun f => if f = InspField.tag then some (JsVal.str "T-1") else none }

/-- Concrete local photo A for the C5 scenario. -/
def photoA : PhotoData :=
  { id := "A", description := "local-desc", pn := "", serialNumber := "SN-A"
    partName := "", quantity := "2", criticality := ""
    imageData := some "imgA", editedImageData := none
    embeddedPhotos := [], hasAdditionalParts := false }

/-- Concrete local photo B for the C5 scenario. -/
def photoB : PhotoData :=
  { id := "B", description := "b-desc", pn := "PN-B", serialNumber := ""
    partName := "", quantity := "", criticality := ""
    imageData := none, editedImageData := none
    embeddedPhotos := [], hasAdditionalParts := false }

/-- Concrete server photo X for the C5 scenario. -/
def photoX : PhotoData :=
  { id := "X", description := "", pn := "PN-X", serialNumber := ""
    partName := "Part X", quantity := "", criticality := "high"
    imageData := none, editedImageData := some "editX"
    embeddedPhotos := ["e1"], hasAdditionalParts := true }

/-- The poll request used throughout the session theorems. -/
def pollReq (sid uid : String) (cursor : Option Int) : Request :=
  { action := "poll", sessionId := sid, userId := uid, lastUpdate := cursor }

/-- The get request used throughout the session theorems. -/
def getReq (sid : String) : Request :=
  { action := "get", sessionId := sid }

/-- A session used by witnesses: present in the store, no participants. -/
def demoEmptySession : StoredSession :=
  { sessionId := "S", creatorId := "c", creatorName := "Collaboration Session"
    reportType := "collaboration", permission := "edit"
    sessData := { data := some JsVal.null, users := [], updates := [], lastUpdated := 0 }
    expiresAt := 0 }

/-- Index oracle used by the C7 scenarios: always draws index 0. -/
def createRandZero : Nat → Fin 62 := fun i => 0

/-- A create request that carries an initial data payload. -/
def createReqWithData : Request :=
  { action := "create", userId := "u1", data := some (JsVal.str "X") }

/-- A field-scoped update request. -/
def fieldUpdateReq (sid uid : String) (fld : Option String) (vl : Option JsVal)
    (tsOpt : Option Int) : Request :=
  { action := "update", sessionId := sid, userId := uid,
    type := some UpdateKind.field, field := fld, value := vl, timestamp := tsOpt }

/-- A full-payload update request. -/
def fullUpdateReq (sid uid : String) (dataPayload : Option JsVal)
    (tsOpt : Option Int) : Request :=
  { action := "update", sessionId := sid, userId := uid,
    type := some UpdateKind.full, data := dataPayload, timestamp := tsOpt }

/-- The log entry recorded for a field-scoped update. -/
def fieldEvent (uid : String) (fld : Option String) (vl : Option JsVal)
    (ts : Int) : SessionUpdate :=
  { userId := uid, type := UpdateKind.field, field := fld, value := vl,
    timestamp := ts }

/-- The single fresh field event of the C4 witness session. -/
def demoPollUpdate : SessionUpdate :=
  { userId := "u", type := UpdateKind.field, field := some "inspection.tag",
    value := some (JsVal.str "T-1"), timestamp := 100 }

/-- The C4 witness session: one participant, one logged update. -/
def demoPollSession : StoredSession :=
  { sessionId := "S", creatorId := "c", creatorName := "Collaboration Session"
    reportType := "collaboration", permission := "edit"
    sessData := { data := some JsVal.null
                  users := [("u", { id := "u", joinedAt := 0, lastSeen := 100 })]
                  updates := [demoPollUpdate]
                  lastUpdated := 100 }
    expiresAt := 0 }

/-! Helper lemmas about the list plumbing of the embedding. -/

theorem filterMap_eq_map_of_forall_some {α β : Type} (l : List α) (f : α → Option β)
    (g : α → β) (h : ∀ a ∈ l, f a = some (g a)) : l.filterMap f = l.map g := by
  induction l with
  | nil => rfl
  | cons a t ih =>
    rw [List.filterMap_cons, List.map_cons, h a (List.mem_cons_self a t),
      ih fun b hb => h b (List.mem_cons_of_mem a hb)]

theorem strOr_self (a : String) : strOr a a = a := by
  unfold strOr
  split <;> rfl

theorem strOr_self_empty (a : String) : strOr a (strOr a "") = a := by
  unfold strOr
  split
  · next h => exact (beq_iff_eq.mp h).symm
  · rfl

theorem optStrOr_self (a : Option String) : optStrOr a a = a := by
  unfold optStrOr
  cases a with
  | none => rfl
  | some s =>
    simp only
    split
    · next h => rw [beq_iff_eq.mp h]
    · rfl

theorem mergePhotoPair_self (p : PhotoData) : mergePhotoPair p p = p := by
  unfold mergePhotoPair
  cases p
  simp only [strOr_self, strOr_self_empty, optStrOr_self, ite_self, Bool.or_self]

theorem pairAt_eq_some {lp sp : List PhotoData} {i : Nat}
    (h : i < max lp.length sp.length) : ∃ v, pairAt lp sp i = some v := by
  unfold pairAt
  cases hl : lp[i]? with
  | some l =>
    cases sp[i]? with
    | some s => exact ⟨_, rfl⟩
    | none => exact ⟨_, rfl⟩
  | none =>
    cases hs : sp[i]? with
    | some s => exact ⟨_, rfl⟩
    | none =>
      exfalso
      have h1 := List.getElem?_eq_none_iff.mp hl
      have h2 := List.getElem?_eq_none_iff.mp hs
      rcases lt_max_iff.mp h with h3 | h3
      · exact absurd h3 (Nat.not_lt.mpr h1)
      · exact absurd h3 (Nat.not_lt.mpr h2)

theorem pairAt_eq_none {lp sp : List PhotoData} {i : Nat}
    (h : ¬ i < max lp.length sp.length) : pairAt lp sp i = none := by
  unfold pairAt
  rw [List.getElem?_eq_none, List.getElem?_eq_none]
  · exact Nat.le_of_not_lt fun hc => h (lt_max_iff.mpr (Or.inr hc))
  · exact Nat.le_of_not_lt fun hc => h (lt_max_iff.mpr (Or.inl hc))

theorem mergePhotos_eq_map (lp sp : List PhotoData) (h1 : lp ≠ []) (h2 : sp ≠ []) :
    mergePhotos lp sp = (List.range (max lp.length sp.length)).map
      (fun i => (pairAt lp sp i).getD default) := by
  unfold mergePhotos
  rw [if_neg (by simp [h2]), if_neg (by simp [h1])]
  refine filterMap_eq_map_of_forall_some _ _ _ fun i hi => ?_
  rcases pairAt_eq_some (List.mem_range.mp hi) with ⟨v, hv⟩
  rw [hv]
  rfl

theorem mergePhotos_length (lp sp : List PhotoData) (h1 : lp ≠ []) (h2 : sp ≠ []) :
    (mergePhotos lp sp).length = max lp.length sp.length := by
  rw [mergePhotos_eq_map lp sp h1 h2, List.length_map, List.length_range]

theorem mergePhotos_getElem (lp sp : List PhotoData) (h1 : lp ≠ []) (h2 : sp ≠ [])
    (i : Nat) : (mergePhotos lp sp)[i]? = pairAt lp sp i := by
  rw [mergePhotos_eq_map lp sp h1 h2, List.getElem?_map]
  by_cases hi : i < max lp.length sp.length
  · rw [List.getElem?_range hi, Option.map_some']
    rcases pairAt_eq_some hi with ⟨v, hv⟩
    rw [hv]
    rfl
  · rw [List.getElem?_eq_none (by simpa using Nat.le_of_not_lt hi),
      Option.map_none', pairAt_eq_none hi]

theorem mergePhotos_self (p : List PhotoData) : mergePhotos p p = p := by
  cases hp : p with
  | nil => rfl
  | cons a t =>
    rw [← hp]
    have hne : p ≠ [] := by rw [hp]; exact List.cons_ne_nil a t
    refine List.ext_getElem? fun i => ?_
    rw [mergePhotos_getElem p p hne hne i]
    unfold pairAt
    cases hl : p[i]? with
    | none => rfl
    | some v => simp [mergePhotoPair_self]

theorem findUnique_updateData (db : Db) (sid : String) (sd : SessionData)
    (s : StoredSession) (h : db.findUnique sid = some s) :
    Db.findUnique (Db.updateData db sid sd) sid = some { s with sessData := sd } := by
  induction db with
  | nil => simp [Db.findUnique] at h
  | cons p rest ih =>
    by_cases hp : (p.1 == sid) = true
    · have hps : p.2 = s := by
        simp [Db.findUnique, List.find?, hp] at h
        exact h
      simp [Db.updateData, Db.findUnique, List.find?, hp, hps]
    · have hrest : Db.findUnique rest sid = some s := by
        simp only [Db.findUnique, List.find?, hp] at h
        exact h
      have h2 := ih hrest
      simp [Db.updateData, Db.findUnique, List.find?, hp] at h2 ⊢
      exact h2

theorem findUnique_append_single (db : Db) (sid : String) (st : StoredSession)
    (h : db.findUnique sid = none) :
    Db.findUnique (db ++ [(sid, st)]) sid = some st := by
  unfold Db.findUnique at h ⊢
  rw [List.find?_append]
  have hn : db.find? (fun p => p.1 == sid) = none := by
    cases hf : db.find? fun p => p.1 == sid with
    | none => rfl
    | some q => rw [hf] at h; simp at h
  rw [hn]
  simp [List.find?]

theorem mem_map_refresh_ne {β : Type} (l : List (String × β)) (uid k : String)
    (b : β) (g : β → β) (hk : k ≠ uid) :
    ((k, b) ∈ l.map fun q => if q.1 == uid then (q.1, g q.2) else q) ↔ (k, b) ∈ l := by
  induction l with
  | nil => simp
  | cons q rest ih =>
    rw [List.map_cons, List.mem_cons, List.mem_cons, ih]
    by_cases hq : (q.1 == uid) = true
    · rw [if_pos hq]
      have hkq : k ≠ q.1 := fun he => hk (he.trans (beq_iff_eq.mp hq))
      constructor
      · rintro (he | hm)
        · exact absurd (congrArg Prod.fst he) hkq
        · exact Or.inr hm
      · rintro (he | hm)
        · exact absurd (congrArg Prod.fst he) hkq
        · exact Or.inr hm
    · rw [if_neg hq]

/-! Claim theorems. -/

/-- Claim C10: the flat store's `mergeFromData` never consults its
`serverTimestamp` parameter — any two invocations differing only in that
argument produce identical resulting state and change flag. -/
theorem flat_merge_ignores_serverTimestamp :
    ∀ (s : ReportState) (d : ReportPayload) (ts1 ts2 : Option Int),
      ReportStore.mergeFromData s d ts1 = ReportStore.mergeFromData s d ts2 :=
  fun s d ts1 ts2 => rfl

/-- Claim C9: every listed mutating operation of either store stamps
`lastLocalEdit` with the current time; `loadFromData` and `mergeFromData`
never advance it; `clearAll` resets the aggregate to its defaults with
`lastLocalEdit = 0`. -/
theorem local_edit_tracker_asymmetry :
    (∀ (s : ReportState) (d : PartialInspection) (now : Int),
       (ReportStore.updateInspection s d now).lastLocalEdit = now) ∧
    (∀ (s : ReportState) (ps : List PhotoData) (now : Int),
       (ReportStore.setPhotos s ps now).lastLocalEdit = now) ∧
    (∀ (s : ReportState) (now : Int),
       (ReportStore.addPhoto s now).lastLocalEdit = now) ∧
    (∀ (s : ReportState) (pid : String) (now : Int),
       (ReportStore.removePhoto s pid now).lastLocalEdit = now) ∧
    (∀ (s : ReportState) (pid : String) (d : PartialPhoto) (now : Int),
       (ReportStore.updatePhoto s pid d now).lastLocalEdit = now) ∧
    (∀ (s : ReportState) (part : AdditionalPart) (now : Int),
       (ReportStore.addAdditionalPart s part now).lastLocalEdit = now) ∧
    (∀ (s : ReportState) (pid : String) (now : Int),
       (ReportStore.removeAdditionalPart s pid now).lastLocalEdit = now) ∧
    (∀ (s : ReportState) (pid : String) (d : PartialAdditionalPart) (now : Int),
       (ReportStore.updateAdditionalPart s pid d now).lastLocalEdit = now) ∧
    (∀ (s : ReportState) (parts : List AdditionalPart) (now : Int),
       (ReportStore.setAdditionalParts s parts now).lastLocalEdit = now) ∧
    (∀ (s : ReportState) (t : String) (now : Int),
       (ReportStore.setConclusion s t now).lastLocalEdit = now) ∧
    (∀ (s : ReportState) (d : ReportPayload),
       (ReportStore.loadFromData s d).lastLocalEdit = s.lastLocalEdit) ∧
    (∀ (s : ReportState) (d : ReportPayload) (ts : Option Int),
       (ReportStore.mergeFromData s d ts).1.lastLocalEdit = s.lastLocalEdit) ∧
    (∀ s : ReportState, ReportStore.clearAll s = initialReportState) ∧
    (∀ (s : HomeReportState) (d : PartialInspection) (now : Int),
       (HomeReportStore.updateInspection s d now).lastLocalEdit = now) ∧
    (∀ (s : HomeReportState) (cs : List PhotoCategory) (now : Int),
       (HomeReportStore.setCategories s cs now).lastLocalEdit = now) ∧
    (∀ (s : HomeReportState) (cid : String) (now : Int),
       (HomeReportStore.addPhotoToCategory s cid now).lastLocalEdit = now) ∧
    (∀ (s : HomeReportState) (cid pid : String) (now : Int),
       (HomeReportStore.removePhotoFromCategory s cid pid now).lastLocalEdit = now) ∧
    (∀ (s : HomeReportState) (cid pid : String) (d : PartialPhoto) (now : Int),
       (HomeReportStore.updatePhotoInCategory s cid pid d now).lastLocalEdit = now) ∧
    (∀ (s : HomeReportState) (cid : String) (part : AdditionalPart) (now : Int),
       (HomeReportStore.addAdditionalPartToCategory s cid part now).lastLocalEdit = now) ∧
    (∀ (s : HomeReportState) (cid pid : String) (now : Int),
       (HomeReportStore.removeAdditionalPartFromCategory s cid pid now).lastLocalEdit
         = now) ∧
    (∀ (s : HomeReportState) (t : String) (now : Int),
       (HomeReportStore.setConclusion s t now).lastLocalEdit = now) ∧
    (∀ (s : HomeReportState) (d : HomePayload),
       (HomeReportStore.loadFromData s d).lastLocalEdit = s.lastLocalEdit) ∧
    (∀ (s : HomeReportState) (d : HomePayload) (ts : Option Int) (now : Int),
       (HomeReportStore.mergeFromData s d ts now).lastLocalEdit = s.lastLocalEdit) ∧
    (∀ s : HomeReportState, HomeReportStore.clearAll s = initialHomeReportState) :=
  ⟨fun s d now => rfl, fun s ps now => rfl, fun s now => rfl, fun s pid now => rfl,
   fun s pid d now => rfl, fun s part now => rfl, fun s pid now => rfl,
   fun s pid d now => rfl, fun s parts now => rfl, fun s t now => rfl,
   fun s d => rfl, fun s d ts => rfl, fun s => rfl,
   fun s d now => rfl, fun s cs now => rfl, fun s cid now => rfl,
   fun s cid pid now => rfl, fun s cid pid d now => rfl, fun s cid part now => rfl,
   fun s cid pid now => rfl, fun s t now => rfl, fun s d => rfl,
   fun s d ts now => by
     simp only [HomeReportStore.mergeFromData]
     split <;> rfl,
   fun s => rfl⟩

/-- Claim C1 counterexample: with `serverTimestamp = 0` the precondition
`lastLocalEdit > serverTimestamp ∧ lastLocalEdit > 0` holds (1 > 0), yet the
merge at current time 2 is not a no-op — the zero timestamp is falsy, so the
code substitutes the current time and the server tag overwrites the local
one. -/
theorem merge_noop_fails_at_zero_serverTimestamp :
    noopLocalState.lastLocalEdit > (0 : Int) ∧ noopLocalState.lastLocalEdit > 0 ∧
    (HomeReportStore.mergeFromData noopLocalState noopServerPayload (some 0) 2).inspection
        InspField.tag ≠ noopLocalState.inspection InspField.tag := by
  decide

/-- Claim C1 (amended): whenever the supplied `serverTimestamp` is non-zero
(truthy), `lastLocalEdit > serverTimestamp` and `lastLocalEdit > 0` make the
timestamp-authoritative merge a no-op: the local aggregate is returned
unmodified. A zero or absent `serverTimestamp` is replaced by the current
time, so the no-op condition then compares against the current time instead. -/
theorem merge_noop_with_nonzero_serverTimestamp :
    ∀ (s : HomeReportState) (d : HomePayload) (ts now : Int),
      ts ≠ 0 → s.lastLocalEdit > ts → s.lastLocalEdit > 0 →
      HomeReportStore.mergeFromData s d (some ts) now = s := by
  intro s d ts now hts h1 h2
  have hst : effServerTime (some ts) now = ts := by
    simp [effServerTime, intOr, hts]
  simp only [HomeReportStore.mergeFromData, hst]
  split
  · rfl
  · next hcond => exact absurd ⟨h1, h2⟩ hcond

/-- Witness for the amended C1 theorem at a concrete input. -/
theorem merge_noop_with_nonzero_serverTimestamp_witness :
    HomeReportStore.mergeFromData
      { inspection := initialInspection, categories := [], conclusion := "",
        lastLocalEdit := 2 }
      { inspection := some fun f => some (JsVal.str "S") } (some 1) 5
    = { inspection := initialInspection, categories := [], conclusion := "",
        lastLocalEdit := 2 } :=
  merge_noop_with_nonzero_serverTimestamp
    { inspection := initialInspection, categories := [], conclusion := "",
      lastLocalEdit := 2 }
    { inspection := some fun f => some (JsVal.str "S") } 1 5
    (by decide) (by decide) (by decide)

/-- Claim C2 counterexample: merging the initial flat-store state with a
server payload identical to its own `getAllData` raises the internal change
flag (the payload carries a photos array, which marks changes
unconditionally), so the self-merge does not yield a "no changes" signal. -/
theorem self_merge_raises_change_flag :
    (ReportStore.mergeFromData initialReportState
        (ReportStore.getAllData initialReportState) none).2 = true := by
  rfl

/-- Claim C2 (amended): the change flag of the flat store's `mergeFromData`
is computed internally (the source only console-logs it; the action returns
nothing to its caller). Merging a Report Aggregate with a server payload
identical to the local state leaves the state unchanged — the resulting
inspection, photos and conclusion equal the local ones — but the flag is
raised, not cleared, because any payload containing a photos array marks
changes unconditionally. -/
theorem self_merge_state_unchanged :
    ∀ (s : ReportState) (ts : Option Int),
      (ReportStore.mergeFromData s (ReportStore.getAllData s) ts).1 = s ∧
      (ReportStore.mergeFromData s (ReportStore.getAllData s) ts).2 = true := by
  intro s ts
  constructor
  · ext1
    · funext f
      show ReportStore.mergeInspFieldFlat (s.inspection f) (some (s.inspection f))
          = s.inspection f
      unfold ReportStore.mergeInspFieldFlat
      exact ite_self _
    · exact mergePhotos_self s.photos
    · rfl
    · rfl
    · show (if (s.conclusion != "" && s.conclusion.trim != "") = true then
          if (s.conclusion != s.conclusion) = true then (s.conclusion, true)
          else (s.conclusion, true)
        else (s.conclusion, true)).1 = s.conclusion
      split
      · split <;> rfl
      · rfl
    · rfl
    · rfl
  · show (if (s.conclusion != "" && s.conclusion.trim != "") = true then
        if (s.conclusion != s.conclusion) = true then (s.conclusion, true)
        else (s.conclusion, true)
      else (s.conclusion, true)).2 = true
    split
    · split <;> rfl
    · rfl

/-- Claim C5: with both sides non-empty the photo merge pairs local index i
with incoming index i over `[0, max(len local, len incoming))` — positional
access agrees with the loop body `pairAt`, under which one-sided entries pass
through unchanged and two-sided entries merge field-wise with the incoming
side winning when truthy; `hasAdditionalParts` is the OR of both sides.
Concretely, local `[A,B]` merged with server `[X]` has length 2, index 0 the
field-wise merge of A and X, and index 1 equal to B unchanged. -/
theorem mergePhotos_positional :
    (∀ (lp sp : List PhotoData), lp ≠ [] → sp ≠ [] →
      (mergePhotos lp sp).length = max lp.length sp.length ∧
      ∀ i : Nat, (mergePhotos lp sp)[i]? = pairAt lp sp i) ∧
    (∀ l s : PhotoData, (mergePhotoPair l s).hasAdditionalParts
        = (s.hasAdditionalParts || l.hasAdditionalParts)) ∧
    mergePhotos [photoA, photoB] [photoX] = [mergePhotoPair photoA photoX, photoB] ∧
    mergePhotoPair photoA photoX =
      { id := "X", description := "local-desc", pn := "PN-X", serialNumber := "SN-A"
        partName := "Part X", quantity := "2", criticality := "high"
        imageData := some "imgA", editedImageData := some "editX"
        embeddedPhotos := ["e1"], hasAdditionalParts := true } := by
  refine ⟨fun lp sp h1 h2 => ⟨mergePhotos_length lp sp h1 h2,
    fun i => mergePhotos_getElem lp sp h1 h2 i⟩, fun l s => rfl, ?_, ?_⟩
  · decide
  · decide

/-- Witness for the C5 theorem at the concrete scenario input. -/
theorem mergePhotos_positional_witness :
    (mergePhotos [photoA, photoB] [photoX]).length
      = max [photoA, photoB].length [photoX].length :=
  (mergePhotos_positional.1 [photoA, photoB] [photoX] (by decide) (by decide)).1

/-- If the flat per-field merge yields a falsy value, both inputs were falsy. -/
theorem mergeInspFieldFlat_truthy (L : JsVal) (sv : Option JsVal)
    (h : (ReportStore.mergeInspFieldFlat L sv).truthy = false) :
    L.truthy = false ∧ ∀ v, sv = some v → v.truthy = false := by
  unfold ReportStore.mergeInspFieldFlat at h
  cases sv with
  | none => exact ⟨h, fun v hv => nomatch hv⟩
  | some v =>
    cases hvt : v.truthy with
    | false =>
      simp [hvt] at h
      exact ⟨h, fun w hw => by cases hw; exact hvt⟩
    | true =>
      simp [hvt] at h

/-- A falsy or absent incoming value never changes the local value in the
flat per-field merge. -/
theorem mergeInspFieldFlat_keep (L : JsVal) (sv : Option JsVal)
    (h : sv = none ∨ ∃ v, sv = some v ∧ v.truthy = false) :
    ReportStore.mergeInspFieldFlat L sv = L := by
  unfold ReportStore.mergeInspFieldFlat
  rcases h with h | ⟨v, hv, hvt⟩
  · rw [h]
  · rw [hv]
    simp [hvt]

/-- If the category-aware per-field merge yields a falsy value, both inputs
were falsy. -/
theorem mergeInspFieldHome_truthy (L : JsVal) (sv : Option JsVal) (st lle : Int)
    (h : (HomeReportStore.mergeInspFieldHome L sv st lle).truthy = false) :
    L.truthy = false ∧ ∀ v, sv = some v → v.truthy = false := by
  unfold HomeReportStore.mergeInspFieldHome at h
  cases sv with
  | none => exact ⟨h, fun v hv => nomatch hv⟩
  | some v =>
    cases hvt : v.truthy with
    | false =>
      simp [hvt] at h
      exact ⟨h, fun w hw => by cases hw; exact hvt⟩
    | true =>
      cases hL : L.truthy with
      | false => simp [hvt, hL] at h
      | true =>
        by_cases hst : st > lle
        · simp [hvt, hL, hst] at h
        · simp [hvt, hL, hst] at h

/-- A falsy or absent incoming value never changes the local value in the
category-aware per-field merge. -/
theorem mergeInspFieldHome_keep (L : JsVal) (sv : Option JsVal) (st lle : Int)
    (h : sv = none ∨ ∃ v, sv = some v ∧ v.truthy = false) :
    HomeReportStore.mergeInspFieldHome L sv st lle = L := by
  unfold HomeReportStore.mergeInspFieldHome
  rcases h with h | ⟨v, hv, hvt⟩
  · rw [h]
  · rw [hv]
    simp [hvt]

/-- Claim C6: field-priority invariant of both merge strategies. For the flat
store's whole merge: a falsy merged inspection field forces both the local
field and any incoming field value to be falsy, and a falsy or absent
incoming field never changes a populated local field. The same holds for the
per-field rule applied by the category-aware inspection loop, and for the
category-aware whole merge whenever its local-authority no-op branch is not
taken. -/
theorem merge_field_priority_invariant :
    (∀ (s : ReportState) (d : ReportPayload) (ts : Option Int) (f : InspField),
       ((ReportStore.mergeFromData s d ts).1.inspection f).truthy = false →
         (s.inspection f).truthy = false ∧
         ∀ di, d.inspection = some di → ∀ v, di f = some v → v.truthy = false) ∧
    (∀ (s : ReportState) (d : ReportPayload) (ts : Option Int) (f : InspField)
        (di : PartialInspection),
       d.inspection = some di →
       (di f = none ∨ ∃ v, di f = some v ∧ v.truthy = false) →
         (ReportStore.mergeFromData s d ts).1.inspection f = s.inspection f) ∧
    (∀ (L : JsVal) (sv : Option JsVal) (st lle : Int),
       (HomeReportStore.mergeInspFieldHome L sv st lle).truthy = false →
         L.truthy = false ∧ ∀ v, sv = some v → v.truthy = false) ∧
    (∀ (L : JsVal) (sv : Option JsVal) (st lle : Int),
       (sv = none ∨ ∃ v, sv = some v ∧ v.truthy = false) →
         HomeReportStore.mergeInspFieldHome L sv st lle = L) ∧
    (∀ (s : HomeReportState) (d : HomePayload) (ts : Option Int) (now : Int)
        (f : InspField) (di : PartialInspection),
       d.inspection = some di →
       ¬(s.lastLocalEdit > effServerTime ts now ∧ s.lastLocalEdit > 0) →
       ((HomeReportStore.mergeFromData s d ts now).inspection f).truthy = false →
         (s.inspection f).truthy = false ∧ ∀ v, di f = some v → v.truthy = false) := by
  refine ⟨?_, ?_, mergeInspFieldHome_truthy, mergeInspFieldHome_keep, ?_⟩
  · intro s d ts f h
    cases hd : d.inspection with
    | none =>
      have hres : (ReportStore.mergeFromData s d ts).1.inspection f = s.inspection f := by
        simp [ReportStore.mergeFromData, hd]
      rw [hres] at h
      exact ⟨h, fun di hdi => nomatch hdi⟩
    | some di =>
      have hres : (ReportStore.mergeFromData s d ts).1.inspection f
          = ReportStore.mergeInspFieldFlat (s.inspection f) (di f) := by
        simp [ReportStore.mergeFromData, hd]
      rw [hres] at h
      obtain ⟨h1, h2⟩ := mergeInspFieldFlat_truthy _ _ h
      refine ⟨h1, fun di2 hdi2 v hv => ?_⟩
      cases hdi2
      exact h2 v hv
  · intro s d ts f di hd hsv
    have hres : (ReportStore.mergeFromData s d ts).1.inspection f
        = ReportStore.mergeInspFieldFlat (s.inspection f) (di f) := by
      simp [ReportStore.mergeFromData, hd]
    rw [hres]
    exact mergeInspFieldFlat_keep _ _ hsv
  · intro s d ts now f di hd hnoskip h
    have hres : (HomeReportStore.mergeFromData s d ts now).inspection f
        = HomeReportStore.mergeInspFieldHome (s.inspection f) (di f)
            (effServerTime ts now) s.lastLocalEdit := by
      simp only [HomeReportStore.mergeFromData]
      rw [if_neg hnoskip]
      simp [hd]
    rw [hres] at h
    obtain ⟨h1, h2⟩ := mergeInspFieldHome_truthy _ _ _ _ h
    exact ⟨h1, h2⟩

/-- Witness for the C6 theorem at a concrete input. -/
theorem merge_field_priority_invariant_witness :
    (initialReportState.inspection InspField.tag).truthy = false :=
  (merge_field_priority_invariant.1 initialReportState
     { inspection := some fun f => some JsVal.null } none InspField.tag (by decide)).1

/-- Membership in the update list returned by `poll`: exactly the stored
events that are fresh at poll time and strictly newer than the cursor. -/
theorem mem_poll_updates (db : Db) (sid uid : String) (cursor : Option Int)
    (now : Int) (session : StoredSession) (h : db.findUnique sid = some session)
    (u : SessionUpdate) :
    u ∈ (handlePoll db (pollReq sid uid cursor) now).1.updates ↔
      u ∈ session.sessData.updates ∧ now - u.timestamp < maxInactive ∧
        u.timestamp > intOr cursor 0 := by
  simp only [handlePoll, pollReq, h, List.mem_filter, and_assoc, decide_eq_true_eq]

/-- Claim C8: with no stored session under the requested id, `join`, `poll`,
`update` and `get` answer a structured failure with status 404, while
`delete` and `leave` answer success; `leave` also answers success when the
session exists but the participant is absent. -/
theorem absent_session_contract :
    ∀ (db : Db) (sid uid : String) (now : Int) (rand : Nat → Fin 62)
      (baseUrl : String) (db2 : Db) (s2 : StoredSession),
      db.findUnique sid = none →
      db2.findUnique sid = some s2 →
      hasKey s2.sessData.users uid = false →
      ((handlePost db { action := "join", sessionId := sid, userId := uid }
          now rand baseUrl).1.success = false ∧
       (handlePost db { action := "join", sessionId := sid, userId := uid }
          now rand baseUrl).1.status = 404) ∧
      ((handlePost db (pollReq sid uid none) now rand baseUrl).1.success = false ∧
       (handlePost db (pollReq sid uid none) now rand baseUrl).1.status = 404) ∧
      ((handlePost db { action := "update", sessionId := sid, userId := uid }
          now rand baseUrl).1.success = false ∧
       (handlePost db { action := "update", sessionId := sid, userId := uid }
          now rand baseUrl).1.status = 404) ∧
      ((handlePost db (getReq sid) now rand baseUrl).1.success = false ∧
       (handlePost db (getReq sid) now rand baseUrl).1.status = 404) ∧
      (handlePost db { action := "delete", sessionId := sid }
          now rand baseUrl).1.success = true ∧
      (handlePost db { action := "leave", sessionId := sid, userId := uid }
          now rand baseUrl).1.success = true ∧
      (handlePost db2 { action := "leave", sessionId := sid, userId := uid }
          now rand baseUrl).1.success = true := by
  intro db sid uid now rand baseUrl db2 s2 h h2 h3
  refine ⟨⟨?_, ?_⟩, ⟨?_, ?_⟩, ⟨?_, ?_⟩, ⟨?_, ?_⟩, rfl, rfl, rfl⟩ <;>
    simp [handlePost, handleJoin, handlePoll, handleUpdate, handleGet,
      pollReq, getReq, h, notFoundResp]

/-- Witness for the C8 theorem at a concrete input. -/
theorem absent_session_contract_witness :
    (handlePost [] { action := "join", sessionId := "S", userId := "u" }
        0 (fun i => (0 : Fin 62)) "").1.success = false :=
  (absent_session_contract [] "S" "u" 0 (fun i => (0 : Fin 62)) ""
    [("S", demoEmptySession)] demoEmptySession rfl (by decide) rfl).1.1

/-- Claim C7 counterexample: a create request that carries a data payload does
not initialize the session with `data = null` — the stored payload is
`data || null`, so the immediate `get` on the new session returns the carried
payload, not null. -/
theorem create_with_data_is_not_null :
    (handleGet (handleCreate [] createReqWithData 100 createRandZero "").2
        (getReq ((handleCreate [] createReqWithData 100
          createRandZero "").1.sessionIdOut.getD ""))).1.dataOut
      = some (some (JsVal.str "X")) ∧
    some (some (JsVal.str "X")) ≠ some (some JsVal.null) := by
  decide

/-- Claim C7 (amended): `create` mints a sessionId of exactly 8 characters
from the alphanumeric alphabet and initializes the session with empty
participants and an empty update log; the canonical data is the request's
payload when one is carried and `null` otherwise, so when the create request
carries no data an immediate `get` on the new sessionId returns `data: null`. -/
theorem create_initializes_session :
    ∀ (db : Db) (req : Request) (now : Int) (rand : Nat → Fin 62) (baseUrl : String),
      req.data = none →
      db.findUnique (generateId rand 8) = none →
      (generateId rand 8).length = 8 ∧
      (∀ c ∈ (generateId rand 8).toList, c ∈ idChars) ∧
      (handleCreate db req now rand baseUrl).1.sessionIdOut
        = some (generateId rand 8) ∧
      (∃ st, (handleCreate db req now rand baseUrl).2.findUnique (generateId rand 8)
          = some st ∧
        st.sessData.data = some JsVal.null ∧ st.sessData.users = [] ∧
        st.sessData.updates = [] ∧ st.sessData.lastUpdated = now ∧
        st.expiresAt = now + 24 * 60 * 60 * 1000) ∧
      (handleGet (handleCreate db req now rand baseUrl).2
          (getReq (generateId rand 8))).1.dataOut = some (some JsVal.null) := by
  intro db req now rand baseUrl hd hfresh
  have hfind : (handleCreate db req now rand baseUrl).2.findUnique (generateId rand 8)
      = some { sessionId := generateId rand 8
               creatorId := strOr req.userId "collaboration"
               creatorName := "Collaboration Session"
               reportType := "collaboration"
               permission := "edit"
               sessData :=
                 { data := some (match req.data with
                     | some v => if v.truthy then v else .null
                     | none => .null)
                   users := []
                   updates := []
                   lastUpdated := now }
               expiresAt := now + 24 * 60 * 60 * 1000 } :=
    findUnique_append_single db (generateId rand 8) _ hfresh
  refine ⟨?_, ?_, rfl, ⟨_, hfind, ?_, rfl, rfl, rfl, rfl⟩, ?_⟩
  · simp [generateId, String.length]
  · intro c hc
    simp only [generateId, String.toList, List.mem_map] at hc
    obtain ⟨i, hi, rfl⟩ := hc
    exact List.get_mem idChars _ _
  · simp [hd]
  · simp [handleGet, getReq, hfind, hd]

/-- Witness for the amended C7 theorem at a concrete input. -/
theorem create_initializes_session_witness :
    (handleGet (handleCreate [] { action := "create" } 100 createRandZero "").2
        (getReq (generateId createRandZero 8))).1.dataOut
      = some (some JsVal.null) :=
  (create_initializes_session [] { action := "create" } 100 createRandZero ""
    rfl rfl).2.2.2.2

/-- What a field-scoped update stores back: canonical data untouched, the new
event appended and the log trimmed to the freshness window. -/
theorem field_update_stored (db : Db) (sid uid : String) (session : StoredSession)
    (fld : Option String) (vl : Option JsVal) (tsOpt : Option Int) (now : Int)
    (h : db.findUnique sid = some session) :
    handleUpdate db (fieldUpdateReq sid uid fld vl tsOpt) now
      = ({ success := true }, db.updateData sid
          { session.sessData with
            data := session.sessData.data
            updates := (session.sessData.updates
                ++ [fieldEvent uid fld vl (intOr tsOpt now)]).filter
              fun u => decide (now - u.timestamp < maxInactive)
            lastUpdated := now }) := by
  simp [handleUpdate, fieldUpdateReq, fieldEvent, h]

/-- What a full update stores back: canonical data overwritten with the
request payload, the new event appended and the log trimmed. -/
theorem full_update_stored (db : Db) (sid uid : String) (session : StoredSession)
    (dataPayload : Option JsVal) (tsOpt : Option Int) (now : Int)
    (h : db.findUnique sid = some session) :
    handleUpdate db (fullUpdateReq sid uid dataPayload tsOpt) now
      = ({ success := true }, db.updateData sid
          { session.sessData with
            data := dataPayload
            updates := (session.sessData.updates
                ++ [({ userId := uid, type := UpdateKind.full, data := dataPayload,
                       timestamp := intOr tsOpt now } : SessionUpdate)]).filter
              fun u => decide (now - u.timestamp < maxInactive)
            lastUpdated := now }) := by
  simp [handleUpdate, fullUpdateReq, h]

/-- Claim C3: a `'field'` update event is appended to the session's update log
but leaves the canonical data unchanged — a subsequent `get` returns the same
data as before — whereas a `'full'` update event overwrites the canonical
data with its payload; a subsequent poll (with a cursor older than the event,
within the freshness window) surfaces the field event in its update list. -/
theorem field_update_leaves_canonical_data :
    ∀ (db : Db) (sid uid : String) (session : StoredSession)
      (fld : Option String) (vl : Option JsVal) (tsOpt : Option Int)
      (dataPayload : Option JsVal) (now now2 : Int) (cursor : Option Int),
      db.findUnique sid = some session →
      ((handleGet (handleUpdate db (fieldUpdateReq sid uid fld vl tsOpt) now).2
          (getReq sid)).1.dataOut = some session.sessData.data) ∧
      ((handleGet db (getReq sid)).1.dataOut = some session.sessData.data) ∧
      (now - intOr tsOpt now < maxInactive →
        ∃ session1,
          (handleUpdate db (fieldUpdateReq sid uid fld vl tsOpt) now).2.findUnique sid
            = some session1 ∧
          fieldEvent uid fld vl (intOr tsOpt now) ∈ session1.sessData.updates) ∧
      (now - intOr tsOpt now < maxInactive →
       now2 - intOr tsOpt now < maxInactive →
       intOr tsOpt now > intOr cursor 0 →
        fieldEvent uid fld vl (intOr tsOpt now) ∈
          (handlePoll (handleUpdate db (fieldUpdateReq sid uid fld vl tsOpt) now).2
            (pollReq sid uid cursor) now2).1.updates) ∧
      ((handleGet (handleUpdate db (fullUpdateReq sid uid dataPayload tsOpt) now).2
          (getReq sid)).1.dataOut = some dataPayload) := by
  intro db sid uid session fld vl tsOpt dataPayload now now2 cursor h
  have hfindF : (handleUpdate db (fieldUpdateReq sid uid fld vl tsOpt) now).2.findUnique
      sid = some { session with sessData :=
        { session.sessData with
          data := session.sessData.data
          updates := (session.sessData.updates
              ++ [fieldEvent uid fld vl (intOr tsOpt now)]).filter
            fun u => decide (now - u.timestamp < maxInactive)
          lastUpdated := now } } := by
    rw [field_update_stored db sid uid session fld vl tsOpt now h]
    exact findUnique_updateData db sid _ session h
  have hfindFull : (handleUpdate db (fullUpdateReq sid uid dataPayload tsOpt) now).2.findUnique
      sid = some { session with sessData :=
        { session.sessData with
          data := dataPayload
          updates := (session.sessData.updates
              ++ [({ userId := uid, type := UpdateKind.full, data := dataPayload,
                     timestamp := intOr tsOpt now } : SessionUpdate)]).filter
            fun u => decide (now - u.timestamp < maxInactive)
          lastUpdated := now } } := by
    rw [full_update_stored db sid uid session dataPayload tsOpt now h]
    exact findUnique_updateData db sid _ session h
  refine ⟨?_, ?_, ?_, ?_, ?_⟩
  · simp [handleGet, getReq, hfindF]
  · simp [handleGet, getReq, h]
  · intro hfresh
    refine ⟨_, hfindF, ?_⟩
    refine List.mem_filter.mpr ⟨List.mem_append_right _ (by simp), ?_⟩
    simpa [fieldEvent] using hfresh
  · intro hfresh h2 h3
    rw [mem_poll_updates _ sid uid cursor now2 _ hfindF]
    refine ⟨?_, ?_, ?_⟩
    · refine List.mem_filter.mpr ⟨List.mem_append_right _ (by simp), ?_⟩
      simpa [fieldEvent] using hfresh
    · simpa [fieldEvent] using h2
    · simpa [fieldEvent] using h3
  · simp [handleGet, getReq, hfindFull]

/-- Witness for the C3 theorem at a concrete input. -/
theorem field_update_leaves_canonical_data_witness :
    (handleGet (handleUpdate [("S", demoEmptySession)]
        (fieldUpdateReq "S" "u" (some "inspection.tag") (some (JsVal.str "T-1"))
          (some 100)) 100).2
      (getReq "S")).1.dataOut = some demoEmptySession.sessData.data :=
  (field_update_leaves_canonical_data [("S", demoEmptySession)] "S" "u"
    demoEmptySession (some "inspection.tag") (some (JsVal.str "T-1")) (some 100)
    none 100 101 (some 99) (by decide)).1

/-- What a poll stores back: the caller's `lastSeen` refreshed, inactive
participants pruned, and stale update events pruned. -/
theorem poll_stored (db : Db) (sid uid : String) (cursor : Option Int) (now : Int)
    (session : StoredSession) (h : db.findUnique sid = some session) :
    (handlePoll db (pollReq sid uid cursor) now).2 = db.updateData sid
      { session.sessData with
        users := (if (uid != "" && hasKey session.sessData.users uid) = true then
            session.sessData.users.map fun p =>
              if p.1 == uid then (p.1, { p.2 with lastSeen := now }) else p
          else session.sessData.users).filter
            fun p => !(decide (now - p.2.lastSeen > maxInactive))
        updates := session.sessData.updates.filter
          fun u => decide (now - u.timestamp < maxInactive) } := by
  simp [handlePoll, pollReq, h]

/-- Claim C4: poll prunes every participant whose `lastSeen` is more than five
minutes before the current time (stated for participants other than the
refreshed caller), prunes the update log to events less than five minutes
old, and returns exactly the remaining events strictly newer than the
caller-supplied cursor; with a single fresh logged event, polling with
`lastUpdate` equal to its timestamp returns no updates and polling with
`lastUpdate` one less returns exactly that event. -/
theorem poll_prunes_and_filters :
    ∀ (db : Db) (sid uid : String) (cursor : Option Int) (now : Int)
      (session : StoredSession),
      db.findUnique sid = some session →
      (∃ session1,
        (handlePoll db (pollReq sid uid cursor) now).2.findUnique sid
          = some session1 ∧
        (∀ (k : String) (p : Participant), k ≠ uid →
          ((k, p) ∈ session1.sessData.users ↔
            (k, p) ∈ session.sessData.users ∧ ¬(now - p.lastSeen > maxInactive))) ∧
        (∀ u : SessionUpdate, u ∈ session1.sessData.updates ↔
          u ∈ session.sessData.updates ∧ now - u.timestamp < maxInactive)) ∧
      (∀ u : SessionUpdate,
        u ∈ (handlePoll db (pollReq sid uid cursor) now).1.updates ↔
          u ∈ session.sessData.updates ∧ now - u.timestamp < maxInactive ∧
            u.timestamp > intOr cursor 0) ∧
      (∀ u : SessionUpdate, session.sessData.updates = [u] →
        now - u.timestamp < maxInactive →
        (handlePoll db (pollReq sid uid (some u.timestamp)) now).1.updates = [] ∧
        (handlePoll db (pollReq sid uid (some (u.timestamp - 1))) now).1.updates
          = [u]) := by
  intro db sid uid cursor now session h
  refine ⟨⟨{ session with sessData :=
      { session.sessData with
        users := (if (uid != "" && hasKey session.sessData.users uid) = true then
            session.sessData.users.map fun p =>
              if p.1 == uid then (p.1, { p.2 with lastSeen := now }) else p
          else session.sessData.users).filter
            fun p => !(decide (now - p.2.lastSeen > maxInactive))
        updates := session.sessData.updates.filter
          fun u => decide (now - u.timestamp < maxInactive) } }, ?_, ?_, ?_⟩,
    fun u => mem_poll_updates db sid uid cursor now session h u, ?_⟩
  · rw [poll_stored db sid uid cursor now session h]
    exact findUnique_updateData db sid _ session h
  · intro k p hk
    show (k, p) ∈ List.filter _ _ ↔ _
    by_cases href : (uid != "" && hasKey session.sessData.users uid) = true
    · rw [if_pos href]
      simp only [List.mem_filter,
        mem_map_refresh_ne session.sessData.users uid k p
          (fun b => { b with lastSeen := now }) hk,
        Bool.not_eq_true', decide_eq_false_iff_not]
    · rw [if_neg href]
      simp only [List.mem_filter, Bool.not_eq_true', decide_eq_false_iff_not]
  · intro u
    simp [List.mem_filter]
  · intro u hupd hfresh
    have hresp : ∀ c : Option Int,
        (handlePoll db (pollReq sid uid c) now).1.updates
          = [u].filter fun x => decide (x.timestamp > intOr c 0) := by
      intro c
      have : (handlePoll db (pollReq sid uid c) now).1.updates
          = (session.sessData.updates.filter
              fun x => decide (now - x.timestamp < maxInactive)).filter
            fun x => decide (x.timestamp > intOr c 0) := by
        simp [handlePoll, pollReq, h]
      rw [this, hupd]
      congr 1
      simp [hfresh]
    constructor
    · rw [hresp (some u.timestamp)]
      simp only [List.filter_cons, List.filter_nil]
      by_cases hts : u.timestamp = 0
      · simp [intOr, hts]
      · simp [intOr, hts]
    · rw [hresp (some (u.timestamp - 1))]
      simp only [List.filter_cons, List.filter_nil]
      by_cases hts : u.timestamp - 1 = 0
      · have h1 : u.timestamp = 1 := by omega
        simp [intOr, hts, h1]
      · simp [intOr, hts, show u.timestamp - 1 < u.timestamp from sub_one_lt _]

/-- Witness for the C4 theorem at a concrete input. -/
theorem poll_prunes_and_filters_witness :
    (handlePoll [("S", demoPollSession)] (pollReq "S" "u" (some 100)) 101).1.updates
      = [] :=
  ((poll_prunes_and_filters [("S", demoPollSession)] "S" "u" (some 100) 101
      demoPollSession (by decide)).2.2 demoPollUpdate rfl (by decide)).1

